import Mathlib

/-
Verification of the user-service demo (src/demo-benchmarks/services/user-service/main.py).

The service is a FastAPI application with two routes:
  @app.get("/health")        -> health_check()     returning {"status": "ok"}
  @app.post("/stats/users")  -> get_user_stats()  returning {"total_users": 100, "active_users": 42}
and a pydantic model
  class UserStats(BaseModel):
      total_users: int
      active_users: int

The embedding below models JSON values, the route table, Starlette-style
dispatch (exact method+path match runs the handler; a path match with the
wrong method yields 405; no path match yields 404), and the pydantic v1
integer field validation used by UserStats (integers accepted as-is; strings
coerced through a decimal-integer parse; non-parseable values rejected with
the pydantic v1 message "value is not a valid integer", keyed by field name).
-/

namespace StatsService

/-- JSON values as far as this service produces or consumes them. -/
inductive Json where
  | str : String → Json
  | int : Int → Json
  | obj : List (String × Json) → Json
deriving Repr

/-- Field lookup in a JSON object (first binding wins), `none` on non-objects. -/
def Json.get (j : Json) (key : String) : Option Json :=
  match j with
  | .obj fields => (fields.find? (fun kv => kv.1 == key)).map Prod.snd
  | _ => none

/-- HTTP request methods. -/
inductive Method where
  | GET | POST | PUT | DELETE | PATCH | HEAD | OPTIONS
deriving DecidableEq, Repr

/-- An HTTP request as seen by the handlers. The Python handlers declare no
parameters, so any body carried by the request is ignored by them. -/
structure Request where
  body : Option Json
deriving Repr

/-- Embeds `health_check` from main.py: `return {"status": "ok"}`. The Python
function takes no arguments; the request is passed here only to make the
claim "the handler ignores its input" statable. -/
def health_check (_req : Request) : Json :=
  .obj [("status", .str "ok")]

/-- Embeds `get_user_stats` from main.py:
`return {"total_users": 100, "active_users": 42}`. -/
def get_user_stats (_req : Request) : Json :=
  .obj [("total_users", .int 100), ("active_users", .int 42)]

/-- A route: an HTTP method, a path, and a handler, as registered by the
`@app.get`/`@app.post` decorators. -/
structure Route where
  method : Method
  path : String
  handler : Request → Json

/-- The route table of the FastAPI `app` object in main.py: exactly two
routes, `GET /health` and `POST /stats/users`. -/
def app : List Route :=
  [⟨.GET, "/health", health_check⟩, ⟨.POST, "/stats/users", get_user_stats⟩]

/-- An HTTP response: a status code and a JSON body. -/
structure Response where
  status : Nat
  body : Json

/-- Starlette/FastAPI request dispatch over a route table: the first route
matching both path and method runs its handler with status 200; if some
route matches the path but not the method the framework answers 405 with
body `{"detail": "Method Not Allowed"}`; if no route matches the path it
answers 404 with body `{"detail": "Not Found"}`. -/
def dispatch (routes : List Route) (m : Method) (path : String) (req : Request) : Response :=
  match routes.find? (fun r => r.path == path && r.method == m) with
  | some r => ⟨200, r.handler req⟩
  | none =>
    if routes.any (fun r => r.path == path) then
      ⟨405, .obj [("detail", .str "Method Not Allowed")]⟩
    else
      ⟨404, .obj [("detail", .str "Not Found")]⟩

/-- The application state: the FastAPI `app` object and its route table.
Nothing else in main.py is mutable module state. -/
structure AppState where
  routes : List Route

/-- State-passing form of dispatch. The handler bodies in main.py contain no
assignment to any global or nonlocal name and no I/O, so a request leaves
the application state exactly as it found it; the embedding threads the
state through unchanged accordingly. -/
def dispatchSt (st : AppState) (m : Method) (path : String) (req : Request) :
    Response × AppState :=
  (dispatch st.routes m path req, st)

/-- Fold a digit list into the natural number it denotes in decimal. -/
def digitsToNat (cs : List Char) : Nat :=
  cs.foldl (fun acc c => acc * 10 + (c.toNat - 48)) 0

/-- Decimal-integer parse of a string: an optional sign followed by at least
one digit, as accepted by Python's `int(str)` for the plain decimal forms
pydantic feeds it (surrounding whitespace and digit-group underscores, which
the service never exercises, are not modelled). Returns `none` when the
string is not such an integer literal. -/
def pyIntOfString (s : String) : Option Int :=
  match s.data with
  | [] => none
  | '-' :: rest =>
    if rest ≠ [] ∧ rest.all Char.isDigit then some (-(digitsToNat rest : Int)) else none
  | '+' :: rest =>
    if rest ≠ [] ∧ rest.all Char.isDigit then some ((digitsToNat rest : Int)) else none
  | cs =>
    if cs.all Char.isDigit then some ((digitsToNat cs : Int)) else none

/-- A Python value supplied for a model field: either an integer or a string. -/
inductive PyValue where
  | int : Int → PyValue
  | str : String → PyValue
deriving DecidableEq, Repr

/-- Pydantic v1 validation of an `int`-annotated field: an integer is
accepted as-is; a string is coerced through the decimal-integer parse; a
non-parseable string is rejected with the pydantic v1 error message
"value is not a valid integer". -/
def validateInt : PyValue → Except String Int
  | .int n => .ok n
  | .str s =>
    match pyIntOfString s with
    | some n => .ok n
    | none => .error "value is not a valid integer"

/-- The `UserStats` pydantic model of main.py: two required `int` fields. -/
structure UserStats where
  total_users : Int
  active_users : Int
deriving DecidableEq, Repr

/-- Construction of `UserStats(total_users=..., active_users=...)`: pydantic
validates every field and either returns the model instance or raises a
`ValidationError` carrying one `(field name, message)` entry per failing
field, in field declaration order. -/
def UserStats.validate (total active : PyValue) :
    Except (List (String × String)) UserStats :=
  match validateInt total, validateInt active with
  | .ok t, .ok a => .ok ⟨t, a⟩
  | .error e, .ok _ => .error [("total_users", e)]
  | .ok _, .error e => .error [("active_users", e)]
  | .error e1, .error e2 => .error [("total_users", e1), ("active_users", e2)]

end StatsService

namespace StatsService

/-- C1: every GET request to /health is answered with status 200 and body
exactly the object with the single field status = "ok"; equivalently the
handler health_check always returns that record, whatever the request. -/
theorem c1_health_route_ok (req : Request) :
    dispatch app .GET "/health" req = ⟨200, Json.obj [("status", Json.str "ok")]⟩ ∧
    health_check req = Json.obj [("status", Json.str "ok")] :=
  ⟨rfl, rfl⟩

/-- C2: every POST request to /stats/users is answered with status 200 and a
body whose integer fields total_users and active_users are 100 and 42, and
active_users ≤ total_users holds for that body; equivalently get_user_stats
always returns that record. -/
theorem c2_stats_route_ok (req : Request) :
    (dispatch app .POST "/stats/users" req).status = 200 ∧
    (∃ t a : Int,
      (dispatch app .POST "/stats/users" req).body.get "total_users" = some (.int t) ∧
      (dispatch app .POST "/stats/users" req).body.get "active_users" = some (.int a) ∧
      t = 100 ∧ a = 42 ∧ a ≤ t) ∧
    get_user_stats req = Json.obj [("total_users", Json.int 100), ("active_users", Json.int 42)] :=
  ⟨rfl, ⟨100, 42, rfl, rfl, rfl, rfl, by norm_num⟩, rfl⟩

/-- C3: each route accepts exactly one method: a request to /health with any
method other than GET, or to /stats/users with any method other than POST,
is answered 405 Method Not Allowed, and the response body is the framework
detail object, not any handler output. -/
theorem c3_method_not_allowed (m : Method) (req : Request) :
    (m ≠ .GET → dispatch app m "/health" req =
      ⟨405, Json.obj [("detail", Json.str "Method Not Allowed")]⟩) ∧
    (m ≠ .POST → dispatch app m "/stats/users" req =
      ⟨405, Json.obj [("detail", Json.str "Method Not Allowed")]⟩) := by
  constructor <;> intro h <;> cases m <;> first | exact absurd rfl h | rfl

/-- Witness for C3 at the concrete requests POST /health and GET /stats/users. -/
theorem c3_method_not_allowed_witness :
    Method.POST ≠ Method.GET ∧ Method.GET ≠ Method.POST ∧
    dispatch app .POST "/health" ⟨none⟩ =
      ⟨405, Json.obj [("detail", Json.str "Method Not Allowed")]⟩ ∧
    dispatch app .GET "/stats/users" ⟨none⟩ =
      ⟨405, Json.obj [("detail", Json.str "Method Not Allowed")]⟩ :=
  ⟨by decide, by decide,
   (c3_method_not_allowed .POST ⟨none⟩).1 (by decide),
   (c3_method_not_allowed .GET ⟨none⟩).2 (by decide)⟩

/-- C4: a request whose path is neither /health nor /stats/users is answered
404 Not Found with the framework detail body, for every method; no handler
is invoked. -/
theorem c4_not_found (m : Method) (path : String) (req : Request)
    (h1 : path ≠ "/health") (h2 : path ≠ "/stats/users") :
    dispatch app m path req = ⟨404, Json.obj [("detail", Json.str "Not Found")]⟩ := by
  have b1 : (("/health" : String) == path) = false := by
    simp only [beq_eq_false_iff_ne]
    exact fun e => h1 e.symm
  have b2 : (("/stats/users" : String) == path) = false := by
    simp only [beq_eq_false_iff_ne]
    exact fun e => h2 e.symm
  simp [dispatch, app, List.find?, List.any, b1, b2]

/-- Witness for C4 at the concrete request GET /invalid-endpoint. -/
theorem c4_not_found_witness :
    ("/invalid-endpoint" : String) ≠ "/health" ∧
    ("/invalid-endpoint" : String) ≠ "/stats/users" ∧
    dispatch app .GET "/invalid-endpoint" ⟨none⟩ =
      ⟨404, Json.obj [("detail", Json.str "Not Found")]⟩ :=
  ⟨by decide, by decide,
   c4_not_found .GET "/invalid-endpoint" ⟨none⟩ (by decide) (by decide)⟩

/-- C5: constructing UserStats with total_users = 10 and active_users = 5
succeeds, and reading the two fields back yields exactly 10 and 5. -/
theorem c5_userstats_roundtrip :
    ∃ u : UserStats, UserStats.validate (.int 10) (.int 5) = .ok u ∧
      u.total_users = 10 ∧ u.active_users = 5 :=
  ⟨⟨10, 5⟩, rfl, rfl, rfl⟩

/-- C6: constructing UserStats with a string that does not parse as an
integer supplied for active_users fails with a validation error whose entry
list names the offending field active_users with the pydantic message, and
construction never succeeds with a coerced or default value in that case. -/
theorem c6_invalid_field_error (t : PyValue) (s : String)
    (h : pyIntOfString s = none) :
    ∃ errs, UserStats.validate t (.str s) = .error errs ∧
      ("active_users", "value is not a valid integer") ∈ errs := by
  have ha : validateInt (.str s) = .error "value is not a valid integer" := by
    simp [validateInt, h]
  cases ht : validateInt t with
  | ok n =>
    exact ⟨[("active_users", "value is not a valid integer")],
      by simp [UserStats.validate, ht, ha], by simp⟩
  | error e =>
    exact ⟨[("total_users", e), ("active_users", "value is not a valid integer")],
      by simp [UserStats.validate, ht, ha], by simp⟩

/-- Witness for C6 at the unit test's input: total_users = "100",
active_users = "forty-two". -/
theorem c6_invalid_field_error_witness :
    pyIntOfString "forty-two" = none ∧
    ∃ errs, UserStats.validate (.str "100") (.str "forty-two") = .error errs ∧
      ("active_users", "value is not a valid integer") ∈ errs :=
  ⟨by decide, c6_invalid_field_error (.str "100") "forty-two" (by decide)⟩

/-- C7 counterexample: the claim that every successfully constructed
UserStats has non-negative fields is false: construction with
total_users = -1 and active_users = -5 succeeds, since the pydantic model
annotates the fields as plain int with no non-negativity constraint. -/
theorem c7_counterexample :
    ¬ ∀ (t a : PyValue) (u : UserStats),
        UserStats.validate t a = .ok u → 0 ≤ u.total_users ∧ 0 ≤ u.active_users := by
  intro h
  have hc := h (.int (-1)) (.int (-5)) ⟨-1, -5⟩ rfl
  exact absurd hc.1 (by norm_num)

/-- C7 amended: successful construction of UserStats enforces only that each
field is an integer; any integers, negative included, are accepted, so
non-negativity is not an invariant of the data model. The constants the
service actually returns, 100 and 42, are non-negative. -/
theorem c7_amended_ints_accepted (t a : Int) (req : Request) :
    UserStats.validate (.int t) (.int a) = .ok ⟨t, a⟩ ∧
    (get_user_stats req).get "total_users" = some (.int 100) ∧
    (get_user_stats req).get "active_users" = some (.int 42) ∧
    (0 : Int) ≤ 100 ∧ (0 : Int) ≤ 42 :=
  ⟨rfl, rfl, rfl, by norm_num, by norm_num⟩

/-- C8: the two handlers are pure, deterministic functions of their ignored
input: any two invocations, with different request bodies or none, return
equal responses. -/
theorem c8_handlers_deterministic (r1 r2 : Request) :
    get_user_stats r1 = get_user_stats r2 ∧ health_check r1 = health_check r2 :=
  ⟨rfl, rfl⟩

/-- C9: the health handler is total and error-free: it returns the constant
status record on every invocation, dispatching its route always yields
status 200 (never an error status, so the error branch is unreachable), and
the application state after the call equals the state before it. -/
theorem c9_health_total_pure (req : Request) (st : AppState) :
    health_check req = Json.obj [("status", Json.str "ok")] ∧
    (dispatchSt st .GET "/health" req).2 = st ∧
    (dispatchSt ⟨app⟩ .GET "/health" req).1.status = 200 :=
  ⟨rfl, rfl, rfl⟩

/-- C10: constructing UserStats with a string that parses as a decimal
integer succeeds, with the value coerced to that integer; in particular
total_users = "100" is accepted as 100, so rejection is not triggered merely
by the supplied value being of non-integer type. -/
theorem c10_string_coercion (s : String) (n a : Int)
    (h : pyIntOfString s = some n) :
    UserStats.validate (.str s) (.int a) = .ok ⟨n, a⟩ := by
  simp [UserStats.validate, validateInt, h]

/-- Witness for C10 at the unit test's string "100". -/
theorem c10_string_coercion_witness :
    pyIntOfString "100" = some 100 ∧
    UserStats.validate (.str "100") (.int 5) = .ok ⟨100, 5⟩ :=
  ⟨by decide, c10_string_coercion "100" 100 5 (by decide)⟩

end StatsService
